import Mathlib

/-!
# JPEG image decoder of sane-airscan (`airscan-jpeg.c`)

Shallow embedding of the JPEG backend of the image-decoder abstraction.

* The decoder object `image_decoder_jpeg` is a record; every operation of the
  source file is a function from the record to the updated record.
* The codec library (libjpeg) is outside the repository.  Its entry points are
  the fields of `Codec`, a parameter of every operation.  A library call that
  ends in the library's `error_exit` (the standard error manager installed by
  `image_decoder_jpeg_new` terminates the process) is the result `none`.
* `JDIMENSION` is `unsigned int`: a `Nat` below `2^32`; `int` values are `Int`;
  conversions and arithmetic that can wrap carry an explicit modulus.
* The field `calls` of the decoder record is a ghost trace of the library
  calls made so far; the sample bytes written through the row buffer stay
  inside the library and are not modelled.
-/

namespace AirscanJpeg

/-! ## Types declared in the headers used by the source -/

/-- Status returned by decoder operations (`IMAGE_STATUS`). -/
inductive IMAGE_STATUS where
  | IMAGE_OK
  | IMAGE_ERROR
  | IMAGE_EOF
  deriving DecidableEq

/-- Frame formats of SANE (`SANE_Frame`). -/
inductive SANE_Frame where
  | SANE_FRAME_GRAY
  | SANE_FRAME_RGB
  | SANE_FRAME_RED
  | SANE_FRAME_GREEN
  | SANE_FRAME_BLUE
  deriving DecidableEq

/-- Scan parameters of SANE (`SANE_Parameters`); the numeric fields are `SANE_Int`. -/
structure SANE_Parameters where
  format : SANE_Frame
  last_frame : Bool
  bytes_per_line : Int
  pixels_per_line : Int
  lines : Int
  depth : Int
  deriving DecidableEq

/-- Clipping window (`image_window`), in pixels; the fields are C `int`. -/
structure image_window where
  x_off : Int
  y_off : Int
  wid : Int
  hei : Int
  deriving DecidableEq

/-- Colour spaces of the codec library (`J_COLOR_SPACE`). -/
inductive J_COLOR_SPACE where
  | JCS_UNKNOWN
  | JCS_GRAYSCALE
  | JCS_RGB
  | JCS_YCbCr
  | JCS_CMYK
  | JCS_YCCK
  deriving DecidableEq

/-- Return code of `jpeg_read_header` for a valid header. -/
def JPEG_HEADER_OK : Int := 1

/-- Largest image dimension the codec library accepts in a header. -/
def JPEG_MAX_DIMENSION : Nat := 65500

/-- Conversion of an `int` to `JDIMENSION` (`unsigned int`). -/
def to_JDIMENSION (i : Int) : Nat := (i % 4294967296).toNat

/-- Conversion of an integer value to a 32-bit `int` (two's complement). -/
def to_int (i : Int) : Int := (i + 2147483648) % 4294967296 - 2147483648

/-- Decompression object of the codec library (`struct jpeg_decompress_struct`):
the public fields the decoder reads or writes, and the library's private part. -/
structure jpeg_decompress_struct (P : Type) where
  image_width : Nat
  image_height : Nat
  num_components : Int
  out_color_space : J_COLOR_SPACE
  priv : P
  deriving DecidableEq

/-- Entry points of the codec library called by the decoder.  `none` is a call
that does not return (the library's `error_exit`). -/
structure Codec (Buf P : Type) where
  /-- Result of `jpeg_create_decompress` on the zero-filled object. -/
  jpeg_create_decompress : jpeg_decompress_struct P
  jpeg_destroy_decompress : jpeg_decompress_struct P → Option Unit
  jpeg_mem_src : jpeg_decompress_struct P → Buf → Option (jpeg_decompress_struct P)
  /-- Gives the updated object and the return code. -/
  jpeg_read_header : jpeg_decompress_struct P → Bool → Option (jpeg_decompress_struct P × Int)
  jpeg_abort : jpeg_decompress_struct P → Option (jpeg_decompress_struct P)
  jpeg_start_decompress : jpeg_decompress_struct P → Option (jpeg_decompress_struct P)
  /-- Gives the updated object and the adjusted `xoffset` and `width`. -/
  jpeg_crop_scanline :
    jpeg_decompress_struct P → Nat → Nat → Option (jpeg_decompress_struct P × Nat × Nat)
  /-- Gives the updated object and the number of lines skipped. -/
  jpeg_skip_scanlines : jpeg_decompress_struct P → Nat → Option (jpeg_decompress_struct P × Nat)
  /-- Gives the updated object and the number of lines read. -/
  jpeg_read_scanlines : jpeg_decompress_struct P → Nat → Option (jpeg_decompress_struct P × Nat)

/-- Library calls recorded in the ghost trace. -/
inductive LibCall where
  | create_decompress
  | destroy_decompress
  | mem_src
  | read_header
  | abort
  | start_decompress
  | crop_scanline (x_off wid : Nat)
  | skip_scanlines (num_lines : Nat)
  | read_scanlines (max_lines : Nat)
  deriving DecidableEq

/-! ## The decoder (`airscan-jpeg.c`) -/

/-- JPEG image decoder (`image_decoder_jpeg`): the libjpeg decoder object and
the number of rows left to read; `calls` is the ghost trace. -/
structure image_decoder_jpeg (P : Type) where
  cinfo : jpeg_decompress_struct P
  num_rows : Nat
  calls : List LibCall
  deriving DecidableEq

variable {Buf P : Type}

/-- Create JPEG image decoder: the object is zero-filled, then the library
creates its decompression object. -/
def image_decoder_jpeg_new (L : Codec Buf P) : image_decoder_jpeg P :=
  { cinfo := L.jpeg_create_decompress
    num_rows := 0
    calls := [LibCall.create_decompress] }

/-- Free JPEG decoder. -/
def image_decoder_jpeg_free (L : Codec Buf P) (jpeg : image_decoder_jpeg P) : Option Unit :=
  L.jpeg_destroy_decompress jpeg.cinfo

/-- The assignment `if (num_components != 1) out_color_space = JCS_RGB` made by
`image_decoder_jpeg_begin` between the header read and the start of decompression. -/
def select_out_color_space (c : jpeg_decompress_struct P) : jpeg_decompress_struct P :=
  if c.num_components ≠ 1 then { c with out_color_space := J_COLOR_SPACE.JCS_RGB } else c

/-- Begin JPEG decoding. -/
def image_decoder_jpeg_begin (L : Codec Buf P) (jpeg : image_decoder_jpeg P) (data : Buf) :
    Option (image_decoder_jpeg P × IMAGE_STATUS) :=
  match L.jpeg_mem_src jpeg.cinfo data with
  | none => none
  | some c1 =>
    match L.jpeg_read_header c1 true with
    | none => none
    | some (c2, rc) =>
      if rc ≠ JPEG_HEADER_OK then
        match L.jpeg_abort c2 with
        | none => none
        | some c3 =>
          some ({ jpeg with
                  cinfo := c3
                  calls := jpeg.calls ++ [LibCall.mem_src, LibCall.read_header, LibCall.abort] },
                IMAGE_STATUS.IMAGE_ERROR)
      else
        match L.jpeg_start_decompress (select_out_color_space c2) with
        | none => none
        | some c4 =>
          some ({ cinfo := c4
                  num_rows := c4.image_height
                  calls := jpeg.calls ++
                    [LibCall.mem_src, LibCall.read_header, LibCall.start_decompress] },
                IMAGE_STATUS.IMAGE_OK)

/-- Reset JPEG decoder. -/
def image_decoder_jpeg_reset (L : Codec Buf P) (jpeg : image_decoder_jpeg P) :
    Option (image_decoder_jpeg P) :=
  match L.jpeg_abort jpeg.cinfo with
  | none => none
  | some c1 => some { jpeg with cinfo := c1, calls := jpeg.calls ++ [LibCall.abort] }

/-- Get image parameters: fills the fields of `params` the source assigns. -/
def image_decoder_jpeg_get_params (jpeg : image_decoder_jpeg P) (params : SANE_Parameters) :
    SANE_Parameters :=
  let pixels_per_line := to_int jpeg.cinfo.image_width
  let lines := to_int jpeg.cinfo.image_height
  if jpeg.cinfo.num_components = 1 then
    { params with
      pixels_per_line := pixels_per_line
      lines := lines
      depth := 8
      format := SANE_Frame.SANE_FRAME_GRAY
      bytes_per_line := pixels_per_line }
  else
    { params with
      pixels_per_line := pixels_per_line
      lines := lines
      depth := 8
      format := SANE_Frame.SANE_FRAME_RGB
      bytes_per_line := to_int (pixels_per_line * 3) }

/-- Set clipping window: gives the updated decoder and the window written back. -/
def image_decoder_jpeg_set_window (L : Codec Buf P) (jpeg : image_decoder_jpeg P)
    (win : image_window) : Option (image_decoder_jpeg P × image_window) :=
  let x_off := to_JDIMENSION win.x_off
  let wid := to_JDIMENSION win.wid
  match L.jpeg_crop_scanline jpeg.cinfo x_off wid with
  | none => none
  | some (c1, x_off1, wid1) =>
    if win.y_off > 0 then
      match L.jpeg_skip_scanlines c1 (to_JDIMENSION win.y_off) with
      | none => none
      | some (c2, _) =>
        some ({ cinfo := c2
                num_rows := to_JDIMENSION win.hei
                calls := jpeg.calls ++
                  [LibCall.crop_scanline x_off wid,
                   LibCall.skip_scanlines (to_JDIMENSION win.y_off)] },
              { win with x_off := to_int x_off1, wid := to_int wid1 })
    else
      some ({ cinfo := c1
              num_rows := to_JDIMENSION win.hei
              calls := jpeg.calls ++ [LibCall.crop_scanline x_off wid] },
            { win with x_off := to_int x_off1, wid := to_int wid1 })

/-- Read next row of image. -/
def image_decoder_jpeg_read_row (L : Codec Buf P) (jpeg : image_decoder_jpeg P) :
    Option (image_decoder_jpeg P × IMAGE_STATUS) :=
  if jpeg.num_rows = 0 then some (jpeg, IMAGE_STATUS.IMAGE_EOF)
  else
    match L.jpeg_read_scanlines jpeg.cinfo 1 with
    | none => none
    | some (c1, n) =>
      if n = 0 then
        some ({ jpeg with cinfo := c1, calls := jpeg.calls ++ [LibCall.read_scanlines 1] },
              IMAGE_STATUS.IMAGE_ERROR)
      else
        some ({ cinfo := c1
                num_rows := (jpeg.num_rows + 4294967295) % 4294967296
                calls := jpeg.calls ++ [LibCall.read_scanlines 1] },
              IMAGE_STATUS.IMAGE_OK)

/-! ## Caller-side drivers and codec conditions used to state the properties -/

/-- The caller invokes `read_row` the given number of times in a row and
collects the statuses (the decoder itself has no loop). -/
def read_rows (L : Codec Buf P) : Nat → image_decoder_jpeg P →
    Option (image_decoder_jpeg P × List IMAGE_STATUS)
  | 0, jpeg => some (jpeg, [])
  | n + 1, jpeg =>
    match image_decoder_jpeg_read_row L jpeg with
    | none => none
    | some (j1, st) =>
      match read_rows L n j1 with
      | none => none
      | some (j2, sts) => some (j2, st :: sts)

/-- The codec, asked for one scanline at a time starting from the given
object, returns and produces a scanline at each of the next `n` requests. -/
def codec_produces (L : Codec Buf P) : Nat → jpeg_decompress_struct P → Bool
  | 0, _ => true
  | n + 1, c =>
    match L.jpeg_read_scanlines c 1 with
    | none => false
    | some (c1, r) => r != 0 && codec_produces L n c1

/-! ## A reference codec

The library is not part of the repository; the following instance of `Codec`
gives the behaviour the specification attributes to it.  It is used to run the
decoder on concrete pages. -/

/-- Modelled from the spec: what the external codec library (libjpeg) finds in
one compressed buffer.  The header is accepted or not; an accepted header
gives the image geometry and component count; `rows_ok` scanlines decode
before the data turns out corrupt (`rows_ok = height` for an intact buffer);
`align` is the block alignment of a horizontal crop. -/
structure Picture where
  header_ok : Bool
  width : Nat
  height : Nat
  components : Int
  rows_ok : Nat
  align : Nat
  deriving DecidableEq

/-- Modelled from the spec: phases of the external library's decompression
object (idle, header being read, header read, producing scanlines). -/
inductive DSTATE where
  | START
  | INHEADER
  | READY
  | SCANNING
  deriving DecidableEq

/-- Modelled from the spec: private part of the external library's
decompression object: its phase, the data source and the next output row. -/
structure LibState where
  global_state : DSTATE
  src : Option Picture
  output_scanline : Nat
  deriving DecidableEq

/-- Modelled from the spec: the crop of the external codec library, which
rounds the offset down to the block alignment and widens the region by the
same amount, so that its right edge stays where it was requested. -/
def crop_align (align x_off wid : Nat) : Nat × Nat :=
  (x_off / align * align, (wid + (x_off - x_off / align * align)) % 4294967296)

/-- Modelled from the spec: the external codec library (libjpeg) with the
standard error manager.  A call made in the wrong phase is fatal (`none`).
`jpeg_read_header` reports a valid header (return code 1) or not (return code
0); `jpeg_abort` brings the object back to the idle phase;
`jpeg_read_scanlines` produces one scanline per call while rows of the image
remain and the data is intact, and no scanline otherwise. -/
def libjpeg : Codec Picture LibState where
  jpeg_create_decompress :=
    { image_width := 0
      image_height := 0
      num_components := 0
      out_color_space := J_COLOR_SPACE.JCS_UNKNOWN
      priv := { global_state := DSTATE.START, src := none, output_scanline := 0 } }
  jpeg_destroy_decompress := fun _ => some ()
  jpeg_mem_src := fun c data => some { c with priv := { c.priv with src := some data } }
  jpeg_read_header := fun c _ =>
    if c.priv.global_state = DSTATE.START ∨ c.priv.global_state = DSTATE.INHEADER then
      match c.priv.src with
      | none => none
      | some pic =>
        if pic.header_ok then
          some ({ image_width := pic.width
                  image_height := pic.height
                  num_components := pic.components
                  out_color_space :=
                    if pic.components = 1 then J_COLOR_SPACE.JCS_GRAYSCALE
                    else J_COLOR_SPACE.JCS_YCbCr
                  priv := { c.priv with global_state := DSTATE.READY } }, 1)
        else
          some ({ c with priv := { c.priv with global_state := DSTATE.INHEADER } }, 0)
    else none
  jpeg_abort := fun c =>
    some { c with priv := { c.priv with global_state := DSTATE.START, output_scanline := 0 } }
  jpeg_start_decompress := fun c =>
    if c.priv.global_state = DSTATE.READY then
      some { c with priv := { c.priv with global_state := DSTATE.SCANNING, output_scanline := 0 } }
    else none
  jpeg_crop_scanline := fun c x_off wid =>
    if c.priv.global_state = DSTATE.SCANNING ∧ c.priv.output_scanline = 0 then
      match c.priv.src with
      | none => none
      | some pic => some (c, crop_align pic.align x_off wid)
    else none
  jpeg_skip_scanlines := fun c num_lines =>
    if c.priv.global_state = DSTATE.SCANNING then
      let k := min num_lines (c.image_height - c.priv.output_scanline)
      some ({ c with priv := { c.priv with output_scanline := c.priv.output_scanline + k } }, k)
    else none
  jpeg_read_scanlines := fun c max_lines =>
    if c.priv.global_state = DSTATE.SCANNING then
      match c.priv.src with
      | none => none
      | some pic =>
        if c.priv.output_scanline < c.image_height ∧ c.priv.output_scanline < pic.rows_ok
            ∧ 0 < max_lines then
          some ({ c with priv := { c.priv with output_scanline := c.priv.output_scanline + 1 } }, 1)
        else some (c, 0)
    else none

/-- An intact single-component image of 100 x 50 pixels. -/
def gray_100x50 : Picture :=
  { header_ok := true, width := 100, height := 50, components := 1, rows_ok := 50, align := 8 }

/-- An intact three-component image of 100 x 50 pixels, crops aligned to 8 pixels. -/
def rgb_100x50 : Picture :=
  { header_ok := true, width := 100, height := 50, components := 3, rows_ok := 50, align := 8 }

/-- A buffer whose header the codec does not accept. -/
def bad_header : Picture :=
  { header_ok := false, width := 0, height := 0, components := 0, rows_ok := 0, align := 8 }

/-- The decoder after `image_decoder_jpeg_begin` on the given buffer, starting
from the given decoder (the decoder itself when `begin` does not return). -/
def begun (L : Codec Buf P) (jpeg : image_decoder_jpeg P) (data : Buf) : image_decoder_jpeg P :=
  match image_decoder_jpeg_begin L jpeg data with
  | none => jpeg
  | some (j, _) => j

/-- The decoder after `image_decoder_jpeg_set_window` with the given window
(the decoder itself when the call does not return). -/
def windowed (L : Codec Buf P) (jpeg : image_decoder_jpeg P) (win : image_window) :
    image_decoder_jpeg P :=
  match image_decoder_jpeg_set_window L jpeg win with
  | none => jpeg
  | some (j, _) => j


/-- The decoder after `image_decoder_jpeg_reset` (the decoder itself when the
call does not return). -/
def after_reset (L : Codec Buf P) (jpeg : image_decoder_jpeg P) : image_decoder_jpeg P :=
  match image_decoder_jpeg_reset L jpeg with
  | none => jpeg
  | some j => j

/-- The decoder after the given number of `read_row` calls (the decoder itself
when a call does not return). -/
def after_rows (L : Codec Buf P) (n : Nat) (jpeg : image_decoder_jpeg P) : image_decoder_jpeg P :=
  match read_rows L n jpeg with
  | none => jpeg
  | some (j, _) => j

/-! ## Auxiliary lemmas -/

theorem to_int_of_small (n : Int) (h0 : -2147483648 ≤ n) (h1 : n < 2147483648) :
    to_int n = n := by
  unfold to_int
  omega

theorem to_JDIMENSION_of_nonneg (i : Int) (h0 : 0 ≤ i) (h1 : i < 4294967296) :
    (to_JDIMENSION i : Int) = i := by
  unfold to_JDIMENSION
  omega

theorem to_JDIMENSION_toNat (i : Int) (h0 : 0 ≤ i) (h1 : i < 4294967296) :
    to_JDIMENSION i = i.toNat := by
  unfold to_JDIMENSION
  omega

theorem read_row_of_zero (L : Codec Buf P) (jpeg : image_decoder_jpeg P)
    (h : jpeg.num_rows = 0) :
    image_decoder_jpeg_read_row L jpeg = some (jpeg, IMAGE_STATUS.IMAGE_EOF) := by
  simp [image_decoder_jpeg_read_row, h]

theorem read_row_eof_inv (L : Codec Buf P) (jpeg j1 : image_decoder_jpeg P)
    (h : image_decoder_jpeg_read_row L jpeg = some (j1, IMAGE_STATUS.IMAGE_EOF)) :
    jpeg.num_rows = 0 ∧ j1 = jpeg := by
  unfold image_decoder_jpeg_read_row at h
  by_cases hz : jpeg.num_rows = 0
  · simp [hz] at h
    exact ⟨hz, h.symm⟩
  · rw [if_neg hz] at h
    cases hc : L.jpeg_read_scanlines jpeg.cinfo 1 with
    | none => simp [hc] at h
    | some r =>
      obtain ⟨c1, n⟩ := r
      by_cases hn : n = 0 <;> simp [hc, hn] at h

theorem read_rows_of_zero (L : Codec Buf P) (jpeg : image_decoder_jpeg P)
    (h : jpeg.num_rows = 0) (n : Nat) :
    read_rows L n jpeg = some (jpeg, List.replicate n IMAGE_STATUS.IMAGE_EOF) := by
  induction n with
  | zero => simp [read_rows]
  | succ k ih => simp [read_rows, read_row_of_zero L jpeg h, ih, List.replicate_succ]

theorem read_row_of_scanline (L : Codec Buf P) (jpeg : image_decoder_jpeg P)
    (c1 : jpeg_decompress_struct P) (r : Nat)
    (hn : jpeg.num_rows ≠ 0) (hr : r ≠ 0)
    (hc : L.jpeg_read_scanlines jpeg.cinfo 1 = some (c1, r)) :
    image_decoder_jpeg_read_row L jpeg =
      some ({ cinfo := c1
              num_rows := (jpeg.num_rows + 4294967295) % 4294967296
              calls := jpeg.calls ++ [LibCall.read_scanlines 1] },
            IMAGE_STATUS.IMAGE_OK) := by
  simp [image_decoder_jpeg_read_row, hn, hc, hr]

theorem read_row_of_no_scanline (L : Codec Buf P) (jpeg : image_decoder_jpeg P)
    (c1 : jpeg_decompress_struct P)
    (hn : jpeg.num_rows ≠ 0)
    (hc : L.jpeg_read_scanlines jpeg.cinfo 1 = some (c1, 0)) :
    image_decoder_jpeg_read_row L jpeg =
      some ({ jpeg with cinfo := c1, calls := jpeg.calls ++ [LibCall.read_scanlines 1] },
            IMAGE_STATUS.IMAGE_ERROR) := by
  simp [image_decoder_jpeg_read_row, hn, hc]

theorem codec_produces_mono (L : Codec Buf P) (m n : Nat) (hmn : m ≤ n) :
    ∀ c : jpeg_decompress_struct P, codec_produces L n c = true → codec_produces L m c = true := by
  induction n generalizing m with
  | zero =>
    intro c _
    have : m = 0 := by omega
    subst this
    rfl
  | succ k ih =>
    intro c h
    cases m with
    | zero => rfl
    | succ j =>
      unfold codec_produces at h ⊢
      cases hc : L.jpeg_read_scanlines c 1 with
      | none => simp [hc] at h
      | some r =>
        obtain ⟨c1, q⟩ := r
        simp only [hc, Bool.and_eq_true] at h ⊢
        exact ⟨h.1, ih j (by omega) c1 h.2⟩

/-- Draining: when the row counter is `n` and the codec produces the next `n`
scanlines, `n` calls of `read_row` all return OK and leave the counter at zero. -/
theorem read_rows_all_ok (L : Codec Buf P) (n : Nat) :
    ∀ jpeg : image_decoder_jpeg P, jpeg.num_rows = n → n < 4294967296 →
      codec_produces L n jpeg.cinfo = true →
      ∃ j1, read_rows L n jpeg = some (j1, List.replicate n IMAGE_STATUS.IMAGE_OK) ∧
        j1.num_rows = 0 := by
  induction n with
  | zero =>
    intro jpeg h _ _
    exact ⟨jpeg, by simp [read_rows], h⟩
  | succ k ih =>
    intro jpeg h hlt hp
    unfold codec_produces at hp
    cases hc : L.jpeg_read_scanlines jpeg.cinfo 1 with
    | none => simp [hc] at hp
    | some r =>
      obtain ⟨c1, q⟩ := r
      simp only [hc, Bool.and_eq_true, bne_iff_ne, ne_eq] at hp
      have hrow := read_row_of_scanline L jpeg c1 q (by omega) hp.1 hc
      obtain ⟨j1, hj1, hz⟩ := ih
        { cinfo := c1
          num_rows := (jpeg.num_rows + 4294967295) % 4294967296
          calls := jpeg.calls ++ [LibCall.read_scanlines 1] }
        (by show (jpeg.num_rows + 4294967295) % 4294967296 = k; omega) (by omega) hp.2
      exact ⟨j1, by simp [read_rows, hrow, hj1, List.replicate_succ], hz⟩

theorem read_rows_append (L : Codec Buf P) (a b : Nat) :
    ∀ jpeg : image_decoder_jpeg P,
      read_rows L (a + b) jpeg =
        match read_rows L a jpeg with
        | none => none
        | some (j1, s1) =>
          match read_rows L b j1 with
          | none => none
          | some (j2, s2) => some (j2, s1 ++ s2) := by
  induction a with
  | zero =>
    intro jpeg
    simp only [Nat.zero_add, read_rows, List.nil_append]
    cases read_rows L b jpeg with
    | none => rfl
    | some q => rfl
  | succ k ih =>
    intro jpeg
    rw [show k + 1 + b = (k + b) + 1 by omega, read_rows, read_rows]
    cases image_decoder_jpeg_read_row L jpeg with
    | none => rfl
    | some r =>
      obtain ⟨j1, st⟩ := r
      simp only [ih j1]
      cases read_rows L k j1 with
      | none => rfl
      | some q =>
        obtain ⟨j2, s1⟩ := q
        simp only
        cases read_rows L b j2 with
        | none => rfl
        | some q2 => rfl

theorem read_rows_ok_then_eof (L : Codec Buf P) (n : Nat) (jpeg : image_decoder_jpeg P)
    (h : jpeg.num_rows = n) (hlt : n < 4294967296)
    (hp : codec_produces L n jpeg.cinfo = true) :
    (read_rows L (n + 1) jpeg).map Prod.snd =
      some (List.replicate n IMAGE_STATUS.IMAGE_OK ++ [IMAGE_STATUS.IMAGE_EOF]) := by
  obtain ⟨j1, hj1, hz⟩ := read_rows_all_ok L n jpeg h hlt hp
  rw [read_rows_append, hj1]
  simp [read_rows_of_zero L j1 hz 1]

theorem begin_ok_inv (L : Codec Buf P) (jpeg j0 : image_decoder_jpeg P) (data : Buf)
    (h : image_decoder_jpeg_begin L jpeg data = some (j0, IMAGE_STATUS.IMAGE_OK)) :
    ∃ c1 c2 c4, L.jpeg_mem_src jpeg.cinfo data = some c1 ∧
      L.jpeg_read_header c1 true = some (c2, JPEG_HEADER_OK) ∧
      L.jpeg_start_decompress (select_out_color_space c2) = some c4 ∧
      j0 = { cinfo := c4
             num_rows := c4.image_height
             calls := jpeg.calls ++
               [LibCall.mem_src, LibCall.read_header, LibCall.start_decompress] } := by
  unfold image_decoder_jpeg_begin at h
  cases h1 : L.jpeg_mem_src jpeg.cinfo data with
  | none => simp [h1] at h
  | some c1 =>
    cases h2 : L.jpeg_read_header c1 true with
    | none => simp [h1, h2] at h
    | some r =>
      obtain ⟨c2, rc⟩ := r
      by_cases hrc : rc = JPEG_HEADER_OK
      · subst hrc
        cases h3 : L.jpeg_start_decompress (select_out_color_space c2) with
        | none => simp [h1, h2, h3] at h
        | some c4 =>
          simp only [h1, h2, h3, ne_eq, not_true_eq_false, if_false, Option.some.injEq,
            Prod.mk.injEq, and_true] at h
          exact ⟨c1, c2, c4, rfl, h2, h3, h.symm⟩
      · simp only [h1, h2, ne_eq, hrc, not_false_eq_true, if_true] at h
        split at h <;> simp at h

theorem begin_error_inv (L : Codec Buf P) (jpeg j1 : image_decoder_jpeg P) (data : Buf)
    (h : image_decoder_jpeg_begin L jpeg data = some (j1, IMAGE_STATUS.IMAGE_ERROR)) :
    ∃ c1 c2 rc c3, L.jpeg_mem_src jpeg.cinfo data = some c1 ∧
      L.jpeg_read_header c1 true = some (c2, rc) ∧ rc ≠ JPEG_HEADER_OK ∧
      L.jpeg_abort c2 = some c3 ∧
      j1 = { cinfo := c3
             num_rows := jpeg.num_rows
             calls := jpeg.calls ++ [LibCall.mem_src, LibCall.read_header, LibCall.abort] } := by
  unfold image_decoder_jpeg_begin at h
  cases h1 : L.jpeg_mem_src jpeg.cinfo data with
  | none => simp [h1] at h
  | some c1 =>
    cases h2 : L.jpeg_read_header c1 true with
    | none => simp [h1, h2] at h
    | some r =>
      obtain ⟨c2, rc⟩ := r
      by_cases hrc : rc = JPEG_HEADER_OK
      · simp only [h1, h2, hrc, ne_eq, not_true_eq_false, if_false] at h
        split at h <;> simp at h
      · cases h3 : L.jpeg_abort c2 with
        | none => simp [h1, h2, h3, hrc] at h
        | some c3 =>
          simp only [h1, h2, h3, ne_eq, hrc, not_false_eq_true, if_true, Option.some.injEq,
            Prod.mk.injEq, and_true] at h
          exact ⟨c1, c2, rc, c3, rfl, h2, hrc, h3, h.symm⟩

theorem begin_of_header_ok (L : Codec Buf P) (jpeg : image_decoder_jpeg P) (data : Buf)
    (c1 c2 c4 : jpeg_decompress_struct P)
    (h1 : L.jpeg_mem_src jpeg.cinfo data = some c1)
    (h2 : L.jpeg_read_header c1 true = some (c2, JPEG_HEADER_OK))
    (h3 : L.jpeg_start_decompress (select_out_color_space c2) = some c4) :
    image_decoder_jpeg_begin L jpeg data =
      some ({ cinfo := c4
              num_rows := c4.image_height
              calls := jpeg.calls ++
                [LibCall.mem_src, LibCall.read_header, LibCall.start_decompress] },
            IMAGE_STATUS.IMAGE_OK) := by
  simp [image_decoder_jpeg_begin, h1, h2, h3]

theorem begin_of_header_bad (L : Codec Buf P) (jpeg : image_decoder_jpeg P) (data : Buf)
    (c1 c2 c3 : jpeg_decompress_struct P) (rc : Int)
    (h1 : L.jpeg_mem_src jpeg.cinfo data = some c1)
    (h2 : L.jpeg_read_header c1 true = some (c2, rc)) (hrc : rc ≠ JPEG_HEADER_OK)
    (h3 : L.jpeg_abort c2 = some c3) :
    image_decoder_jpeg_begin L jpeg data =
      some ({ cinfo := c3
              num_rows := jpeg.num_rows
              calls := jpeg.calls ++ [LibCall.mem_src, LibCall.read_header, LibCall.abort] },
            IMAGE_STATUS.IMAGE_ERROR) := by
  simp [image_decoder_jpeg_begin, h1, h2, h3, hrc]

theorem set_window_no_skip (L : Codec Buf P) (jpeg : image_decoder_jpeg P) (win : image_window)
    (c1 : jpeg_decompress_struct P) (x1 w1 : Nat) (hy : ¬ win.y_off > 0)
    (hcrop : L.jpeg_crop_scanline jpeg.cinfo (to_JDIMENSION win.x_off) (to_JDIMENSION win.wid) =
      some (c1, x1, w1)) :
    image_decoder_jpeg_set_window L jpeg win =
      some ({ cinfo := c1
              num_rows := to_JDIMENSION win.hei
              calls := jpeg.calls ++
                [LibCall.crop_scanline (to_JDIMENSION win.x_off) (to_JDIMENSION win.wid)] },
            { win with x_off := to_int x1, wid := to_int w1 }) := by
  simp [image_decoder_jpeg_set_window, hcrop, hy]

theorem set_window_skip (L : Codec Buf P) (jpeg : image_decoder_jpeg P) (win : image_window)
    (c1 c2 : jpeg_decompress_struct P) (x1 w1 k : Nat) (hy : win.y_off > 0)
    (hcrop : L.jpeg_crop_scanline jpeg.cinfo (to_JDIMENSION win.x_off) (to_JDIMENSION win.wid) =
      some (c1, x1, w1))
    (hskip : L.jpeg_skip_scanlines c1 (to_JDIMENSION win.y_off) = some (c2, k)) :
    image_decoder_jpeg_set_window L jpeg win =
      some ({ cinfo := c2
              num_rows := to_JDIMENSION win.hei
              calls := jpeg.calls ++
                [LibCall.crop_scanline (to_JDIMENSION win.x_off) (to_JDIMENSION win.wid),
                 LibCall.skip_scanlines (to_JDIMENSION win.y_off)] },
            { win with x_off := to_int x1, wid := to_int w1 }) := by
  simp [image_decoder_jpeg_set_window, hcrop, hy, hskip]

/-- Whenever `set_window` returns, the row counter is the requested height,
the vertical fields of the window are untouched and the horizontal fields are
the values the codec's crop gave. -/
theorem set_window_inv (L : Codec Buf P) (jpeg j1 : image_decoder_jpeg P)
    (win win1 : image_window)
    (h : image_decoder_jpeg_set_window L jpeg win = some (j1, win1)) :
    j1.num_rows = to_JDIMENSION win.hei ∧ win1.y_off = win.y_off ∧ win1.hei = win.hei ∧
    ∃ c1 x1 w1,
      L.jpeg_crop_scanline jpeg.cinfo (to_JDIMENSION win.x_off) (to_JDIMENSION win.wid) =
        some (c1, x1, w1) ∧ win1.x_off = to_int x1 ∧ win1.wid = to_int w1 := by
  cases hc : L.jpeg_crop_scanline jpeg.cinfo (to_JDIMENSION win.x_off) (to_JDIMENSION win.wid)
    with
  | none => simp [image_decoder_jpeg_set_window, hc] at h
  | some r =>
    obtain ⟨c1, x1, w1⟩ := r
    by_cases hy : win.y_off > 0
    · cases hs : L.jpeg_skip_scanlines c1 (to_JDIMENSION win.y_off) with
      | none => simp [image_decoder_jpeg_set_window, hc, hy, hs] at h
      | some q =>
        obtain ⟨c2, k⟩ := q
        rw [set_window_skip L jpeg win c1 c2 x1 w1 k hy hc hs] at h
        simp only [Option.some.injEq, Prod.mk.injEq] at h
        obtain ⟨hj, hw⟩ := h
        subst hj hw
        exact ⟨rfl, rfl, rfl, c1, x1, w1, rfl, rfl, rfl⟩
    · rw [set_window_no_skip L jpeg win c1 x1 w1 hy hc] at h
      simp only [Option.some.injEq, Prod.mk.injEq] at h
      obtain ⟨hj, hw⟩ := h
      subst hj hw
      exact ⟨rfl, rfl, rfl, c1, x1, w1, rfl, rfl, rfl⟩

theorem crop_align_contains (a : Nat) (x w W : Int) (hx0 : 0 ≤ x) (hx1 : x < 2147483648)
    (hw0 : -2147483648 ≤ w) (hxw : x + w ≤ W) (hW : W ≤ 65500) :
    to_int (crop_align a (to_JDIMENSION x) (to_JDIMENSION w)).1 = ((x.toNat / a * a : Nat) : Int) ∧
    0 ≤ to_int (crop_align a (to_JDIMENSION x) (to_JDIMENSION w)).1 ∧
    to_int (crop_align a (to_JDIMENSION x) (to_JDIMENSION w)).1 ≤ x ∧
    to_int (crop_align a (to_JDIMENSION x) (to_JDIMENSION w)).1 +
      to_int (crop_align a (to_JDIMENSION x) (to_JDIMENSION w)).2 = x + w := by
  have hx : to_JDIMENSION x = x.toNat := to_JDIMENSION_toNat x hx0 (by omega)
  have hle : x.toNat / a * a ≤ x.toNat := Nat.div_mul_le_self x.toNat a
  simp only [crop_align, hx]
  generalize x.toNat / a * a = x1 at hle ⊢
  unfold to_int to_JDIMENSION
  omega

/-! ## The properties of the specification -/

/-- C1: after a successful `begin`, `get_params` gives `pixels_per_line` = image
width, `lines` = image height (the value `begin` stored in the row counter),
`depth` = 8, format GRAY with `bytes_per_line = pixels_per_line` for exactly one
component and format RGB with `bytes_per_line = pixels_per_line * 3` otherwise;
`bytes_per_line` is a function of `pixels_per_line` and the format.  The image
dimensions are those the codec reports, within its dimension limit. -/
theorem C1_get_params_derivation (L : Codec Buf P) (jpeg j0 : image_decoder_jpeg P) (data : Buf)
    (params : SANE_Parameters)
    (hbegin : image_decoder_jpeg_begin L jpeg data = some (j0, IMAGE_STATUS.IMAGE_OK))
    (hw : j0.cinfo.image_width ≤ JPEG_MAX_DIMENSION)
    (hh : j0.cinfo.image_height ≤ JPEG_MAX_DIMENSION) :
    (image_decoder_jpeg_get_params j0 params).pixels_per_line = j0.cinfo.image_width ∧
    (image_decoder_jpeg_get_params j0 params).lines = j0.cinfo.image_height ∧
    (image_decoder_jpeg_get_params j0 params).lines = j0.num_rows ∧
    (image_decoder_jpeg_get_params j0 params).depth = 8 ∧
    (j0.cinfo.num_components = 1 →
      (image_decoder_jpeg_get_params j0 params).format = SANE_Frame.SANE_FRAME_GRAY ∧
      (image_decoder_jpeg_get_params j0 params).bytes_per_line =
        (image_decoder_jpeg_get_params j0 params).pixels_per_line) ∧
    (j0.cinfo.num_components ≠ 1 →
      (image_decoder_jpeg_get_params j0 params).format = SANE_Frame.SANE_FRAME_RGB ∧
      (image_decoder_jpeg_get_params j0 params).bytes_per_line =
        (image_decoder_jpeg_get_params j0 params).pixels_per_line * 3) ∧
    (image_decoder_jpeg_get_params j0 params).bytes_per_line =
      (image_decoder_jpeg_get_params j0 params).pixels_per_line *
        (if (image_decoder_jpeg_get_params j0 params).format = SANE_Frame.SANE_FRAME_GRAY
          then 1 else 3) := by
  have hrows : j0.num_rows = j0.cinfo.image_height := by
    obtain ⟨c1, c2, c4, _, _, _, hj⟩ := begin_ok_inv L jpeg j0 data hbegin
    rw [hj]
  unfold JPEG_MAX_DIMENSION at hw hh
  have e1 : to_int (j0.cinfo.image_width : Int) = j0.cinfo.image_width :=
    to_int_of_small _ (by omega) (by omega)
  have e2 : to_int (j0.cinfo.image_height : Int) = j0.cinfo.image_height :=
    to_int_of_small _ (by omega) (by omega)
  have e3 : to_int ((j0.cinfo.image_width : Int) * 3) = (j0.cinfo.image_width : Int) * 3 :=
    to_int_of_small _ (by omega) (by omega)
  by_cases hc : j0.cinfo.num_components = 1
  · simp [image_decoder_jpeg_get_params, hc, e1, e2, hrows]
  · simp [image_decoder_jpeg_get_params, hc, e1, e2, e3, hrows]

/-- Witness of C1: the single-component 100 x 50 image. -/
theorem C1_get_params_derivation_witness :
    (image_decoder_jpeg_get_params
        (begun libjpeg (image_decoder_jpeg_new libjpeg) gray_100x50)
        ⟨SANE_Frame.SANE_FRAME_RED, false, 0, 0, 0, 0⟩).pixels_per_line = 100 ∧
    (image_decoder_jpeg_get_params
        (begun libjpeg (image_decoder_jpeg_new libjpeg) gray_100x50)
        ⟨SANE_Frame.SANE_FRAME_RED, false, 0, 0, 0, 0⟩).format = SANE_Frame.SANE_FRAME_GRAY ∧
    (image_decoder_jpeg_get_params
        (begun libjpeg (image_decoder_jpeg_new libjpeg) gray_100x50)
        ⟨SANE_Frame.SANE_FRAME_RED, false, 0, 0, 0, 0⟩).bytes_per_line = 100 := by
  have h := C1_get_params_derivation libjpeg (image_decoder_jpeg_new libjpeg)
    (begun libjpeg (image_decoder_jpeg_new libjpeg) gray_100x50) gray_100x50
    ⟨SANE_Frame.SANE_FRAME_RED, false, 0, 0, 0, 0⟩ (by decide) (by decide) (by decide)
  refine ⟨h.1, (h.2.2.2.2.1 (by decide)).1, ?_⟩
  rw [(h.2.2.2.2.1 (by decide)).2, h.1]
  decide

/-- C2: with a zero row counter `read_row` returns EOF and leaves the decoder
(codec object, row counter and the trace of library calls) as it was; hence
after one EOF every further `read_row`, any number of times, returns EOF, the
decoder stays the same and the row counter stays zero. -/
theorem C2_read_row_eof_idempotent (L : Codec Buf P) (jpeg : image_decoder_jpeg P) :
    (jpeg.num_rows = 0 →
      image_decoder_jpeg_read_row L jpeg = some (jpeg, IMAGE_STATUS.IMAGE_EOF)) ∧
    (∀ j1, image_decoder_jpeg_read_row L jpeg = some (j1, IMAGE_STATUS.IMAGE_EOF) →
      j1 = jpeg ∧ j1.calls = jpeg.calls ∧ j1.num_rows = 0 ∧
      ∀ n, read_rows L n j1 = some (j1, List.replicate n IMAGE_STATUS.IMAGE_EOF)) := by
  refine ⟨read_row_of_zero L jpeg, ?_⟩
  intro j1 h
  obtain ⟨hz, hj⟩ := read_row_eof_inv L jpeg j1 h
  subst hj
  exact ⟨rfl, rfl, hz, read_rows_of_zero L j1 hz⟩

/-- Witness of C2: the drained single-component 100 x 50 image; the 51st call
returns EOF and so do the next seven. -/
theorem C2_read_row_eof_idempotent_witness :
    read_rows libjpeg 7
        (after_rows libjpeg 50 (begun libjpeg (image_decoder_jpeg_new libjpeg) gray_100x50)) =
      some (after_rows libjpeg 50 (begun libjpeg (image_decoder_jpeg_new libjpeg) gray_100x50),
            List.replicate 7 IMAGE_STATUS.IMAGE_EOF) :=
  ((C2_read_row_eof_idempotent libjpeg
      (after_rows libjpeg 50 (begun libjpeg (image_decoder_jpeg_new libjpeg) gray_100x50))).2
    _ (by decide)).2.2.2 7

/-- C3: for a buffer whose header the codec accepts and for which it produces
every scanline of the image, `begin` followed by `read_row` calls (no
`set_window`) gives exactly `get_params().lines` times OK and then EOF. -/
theorem C3_drain_full_image (L : Codec Buf P) (jpeg j0 : image_decoder_jpeg P) (data : Buf)
    (params : SANE_Parameters)
    (hbegin : image_decoder_jpeg_begin L jpeg data = some (j0, IMAGE_STATUS.IMAGE_OK))
    (hdim : j0.cinfo.image_height ≤ JPEG_MAX_DIMENSION)
    (hvalid : codec_produces L j0.cinfo.image_height j0.cinfo = true) :
    (read_rows L ((image_decoder_jpeg_get_params j0 params).lines.toNat + 1) j0).map Prod.snd =
      some (List.replicate (image_decoder_jpeg_get_params j0 params).lines.toNat
              IMAGE_STATUS.IMAGE_OK ++ [IMAGE_STATUS.IMAGE_EOF]) := by
  obtain ⟨c1, c2, c4, _, _, _, hj⟩ := begin_ok_inv L jpeg j0 data hbegin
  have hrows : j0.num_rows = j0.cinfo.image_height := by rw [hj]
  unfold JPEG_MAX_DIMENSION at hdim
  have hl : (image_decoder_jpeg_get_params j0 params).lines.toNat = j0.cinfo.image_height := by
    have e : to_int (j0.cinfo.image_height : Int) = j0.cinfo.image_height :=
      to_int_of_small _ (by omega) (by omega)
    by_cases hc : j0.cinfo.num_components = 1 <;>
      simp [image_decoder_jpeg_get_params, hc, e]
  rw [hl]
  exact read_rows_ok_then_eof L _ j0 hrows (by omega) hvalid

/-- Witness of C3: the single-component 100 x 50 image gives 50 times OK, then EOF. -/
theorem C3_drain_full_image_witness :
    (read_rows libjpeg 51
        (begun libjpeg (image_decoder_jpeg_new libjpeg) gray_100x50)).map Prod.snd =
      some (List.replicate 50 IMAGE_STATUS.IMAGE_OK ++ [IMAGE_STATUS.IMAGE_EOF]) :=
  C3_drain_full_image libjpeg (image_decoder_jpeg_new libjpeg)
    (begun libjpeg (image_decoder_jpeg_new libjpeg) gray_100x50) gray_100x50
    ⟨SANE_Frame.SANE_FRAME_RED, false, 0, 0, 0, 0⟩ (by decide) (by decide) (by decide)

/-- C7: with a non-zero row counter `n`, `read_row` returns OK and leaves the
counter at `n - 1` when the codec produces a scanline, and returns ERROR with
the counter still `n` when the codec produces none; a returned status is never
anything else, and `read_row` returns ERROR exactly when the counter is
non-zero and the codec produces no scanline. -/
theorem C7_read_row_status (L : Codec Buf P) (jpeg : image_decoder_jpeg P) :
    (∀ c1 r, jpeg.num_rows ≠ 0 → jpeg.num_rows < 4294967296 →
      L.jpeg_read_scanlines jpeg.cinfo 1 = some (c1, r) →
      (r ≠ 0 →
        ∃ j1, image_decoder_jpeg_read_row L jpeg = some (j1, IMAGE_STATUS.IMAGE_OK) ∧
          j1.num_rows + 1 = jpeg.num_rows ∧ j1.cinfo = c1) ∧
      (r = 0 →
        ∃ j1, image_decoder_jpeg_read_row L jpeg = some (j1, IMAGE_STATUS.IMAGE_ERROR) ∧
          j1.num_rows = jpeg.num_rows ∧ j1.cinfo = c1) ∧
      ∀ j1 st, image_decoder_jpeg_read_row L jpeg = some (j1, st) →
        st = IMAGE_STATUS.IMAGE_OK ∨ st = IMAGE_STATUS.IMAGE_ERROR) ∧
    ((∃ j1, image_decoder_jpeg_read_row L jpeg = some (j1, IMAGE_STATUS.IMAGE_ERROR)) ↔
      jpeg.num_rows ≠ 0 ∧ ∃ c1, L.jpeg_read_scanlines jpeg.cinfo 1 = some (c1, 0)) := by
  constructor
  · intro c1 r hn hlt hc
    refine ⟨?_, ?_, ?_⟩
    · intro hr
      refine ⟨_, read_row_of_scanline L jpeg c1 r hn hr hc, ?_, rfl⟩
      show (jpeg.num_rows + 4294967295) % 4294967296 + 1 = jpeg.num_rows
      omega
    · intro hr
      subst hr
      exact ⟨_, read_row_of_no_scanline L jpeg c1 hn hc, rfl, rfl⟩
    · intro j1 st h
      by_cases hr : r = 0
      · subst hr
        rw [read_row_of_no_scanline L jpeg c1 hn hc] at h
        simp only [Option.some.injEq, Prod.mk.injEq] at h
        exact Or.inr h.2.symm
      · rw [read_row_of_scanline L jpeg c1 r hn hr hc] at h
        simp only [Option.some.injEq, Prod.mk.injEq] at h
        exact Or.inl h.2.symm
  · constructor
    · rintro ⟨j1, h⟩
      by_cases hn : jpeg.num_rows = 0
      · rw [read_row_of_zero L jpeg hn] at h
        simp at h
      · refine ⟨hn, ?_⟩
        cases hc : L.jpeg_read_scanlines jpeg.cinfo 1 with
        | none => simp [image_decoder_jpeg_read_row, hn, hc] at h
        | some q =>
          obtain ⟨c1, r⟩ := q
          by_cases hr : r = 0
          · subst hr
            exact ⟨c1, rfl⟩
          · rw [read_row_of_scanline L jpeg c1 r hn hr hc] at h
            simp at h
    · rintro ⟨hn, c1, hc⟩
      exact ⟨_, read_row_of_no_scanline L jpeg c1 hn hc⟩

/-- Witness of C7: the first row of the single-component 100 x 50 image is read
with status OK and the row counter goes from 50 to 49. -/
theorem C7_read_row_status_witness :
    ∃ j1, image_decoder_jpeg_read_row libjpeg
        (begun libjpeg (image_decoder_jpeg_new libjpeg) gray_100x50) =
          some (j1, IMAGE_STATUS.IMAGE_OK) ∧
      j1.num_rows + 1 = 50 ∧
      j1.cinfo =
        { image_width := 100
          image_height := 50
          num_components := 1
          out_color_space := J_COLOR_SPACE.JCS_GRAYSCALE
          priv :=
            { global_state := DSTATE.SCANNING, src := some gray_100x50, output_scanline := 1 } } :=
  ((C7_read_row_status libjpeg (begun libjpeg (image_decoder_jpeg_new libjpeg) gray_100x50)).1
    _ 1 (by decide) (by decide) (by decide)).1 (by decide)

/-- C6: once the header read has returned, `begin` returns ERROR exactly when
the return code is not that of a valid header and OK exactly when it is (the
abort, respectively the start of decompression, returning).  On ERROR the
codec object is the one `jpeg_abort` gave back, the abort being the last
library call, and the row counter is untouched; a following `begin`, with no
reset in between, on a buffer whose header the codec accepts returns OK and
sets the row counter to that image's height. -/
theorem C6_begin_status (L : Codec Buf P) (jpeg : image_decoder_jpeg P) (data : Buf)
    (c1 c2 : jpeg_decompress_struct P) (rc : Int)
    (hsrc : L.jpeg_mem_src jpeg.cinfo data = some c1)
    (hhdr : L.jpeg_read_header c1 true = some (c2, rc)) :
    ((∃ j1, image_decoder_jpeg_begin L jpeg data = some (j1, IMAGE_STATUS.IMAGE_ERROR)) ↔
      rc ≠ JPEG_HEADER_OK ∧ ∃ c3, L.jpeg_abort c2 = some c3) ∧
    ((∃ j1, image_decoder_jpeg_begin L jpeg data = some (j1, IMAGE_STATUS.IMAGE_OK)) ↔
      rc = JPEG_HEADER_OK ∧ ∃ c4, L.jpeg_start_decompress (select_out_color_space c2) = some c4) ∧
    (∀ j1 st, image_decoder_jpeg_begin L jpeg data = some (j1, st) →
      st = IMAGE_STATUS.IMAGE_ERROR ∨ st = IMAGE_STATUS.IMAGE_OK) ∧
    (∀ j1, image_decoder_jpeg_begin L jpeg data = some (j1, IMAGE_STATUS.IMAGE_ERROR) →
      L.jpeg_abort c2 = some j1.cinfo ∧
      j1.calls = jpeg.calls ++ [LibCall.mem_src, LibCall.read_header, LibCall.abort] ∧
      j1.num_rows = jpeg.num_rows ∧
      ∀ data2 d1 d2 d4, L.jpeg_mem_src j1.cinfo data2 = some d1 →
        L.jpeg_read_header d1 true = some (d2, JPEG_HEADER_OK) →
        L.jpeg_start_decompress (select_out_color_space d2) = some d4 →
        ∃ j2, image_decoder_jpeg_begin L j1 data2 = some (j2, IMAGE_STATUS.IMAGE_OK) ∧
          j2.cinfo = d4 ∧ j2.num_rows = d4.image_height) := by
  refine ⟨⟨?_, ?_⟩, ⟨?_, ?_⟩, ?_, ?_⟩
  · rintro ⟨j1, h⟩
    obtain ⟨e1, e2, rc2, e3, h1, h2, hrc, h3, _⟩ := begin_error_inv L jpeg j1 data h
    rw [hsrc] at h1
    cases h1
    rw [hhdr] at h2
    cases h2
    exact ⟨hrc, e3, h3⟩
  · rintro ⟨hrc, c3, h3⟩
    exact ⟨_, begin_of_header_bad L jpeg data c1 c2 c3 rc hsrc hhdr hrc h3⟩
  · rintro ⟨j1, h⟩
    obtain ⟨e1, e2, c4, h1, h2, h3, _⟩ := begin_ok_inv L jpeg j1 data h
    rw [hsrc] at h1
    cases h1
    rw [hhdr] at h2
    cases h2
    exact ⟨rfl, c4, h3⟩
  · rintro ⟨hrc, c4, h3⟩
    subst hrc
    exact ⟨_, begin_of_header_ok L jpeg data c1 c2 c4 hsrc hhdr h3⟩
  · intro j1 st h
    cases st with
    | IMAGE_OK => exact Or.inr rfl
    | IMAGE_ERROR => exact Or.inl rfl
    | IMAGE_EOF =>
      exfalso
      unfold image_decoder_jpeg_begin at h
      simp only [hsrc, hhdr] at h
      split at h
      · split at h <;> simp at h
      · split at h <;> simp at h
  · intro j1 h
    obtain ⟨e1, e2, rc2, e3, h1, h2, hrc, h3, hj⟩ := begin_error_inv L jpeg j1 data h
    rw [hsrc] at h1
    cases h1
    rw [hhdr] at h2
    cases h2
    subst hj
    refine ⟨h3, rfl, rfl, ?_⟩
    intro data2 d1 d2 d4 g1 g2 g3
    exact ⟨_, begin_of_header_ok L _ data2 d1 d2 d4 g1 g2 g3, rfl, rfl⟩

/-- Witness of C6: `begin` on a buffer with a bad header returns ERROR; the
next `begin`, on the single-component 100 x 50 image, returns OK with the row
counter at 50. -/
theorem C6_begin_status_witness :
    (∃ j1, image_decoder_jpeg_begin libjpeg (image_decoder_jpeg_new libjpeg) bad_header =
      some (j1, IMAGE_STATUS.IMAGE_ERROR)) ∧
    ∃ j2, image_decoder_jpeg_begin libjpeg
        (begun libjpeg (image_decoder_jpeg_new libjpeg) bad_header) gray_100x50 =
          some (j2, IMAGE_STATUS.IMAGE_OK) ∧
      j2.cinfo =
        { image_width := 100
          image_height := 50
          num_components := 1
          out_color_space := J_COLOR_SPACE.JCS_GRAYSCALE
          priv :=
            { global_state := DSTATE.SCANNING, src := some gray_100x50, output_scanline := 0 } } ∧
      j2.num_rows = 50 :=
  have h := C6_begin_status libjpeg (image_decoder_jpeg_new libjpeg) bad_header
    { image_width := 0
      image_height := 0
      num_components := 0
      out_color_space := J_COLOR_SPACE.JCS_UNKNOWN
      priv := { global_state := DSTATE.START, src := some bad_header, output_scanline := 0 } }
    { image_width := 0
      image_height := 0
      num_components := 0
      out_color_space := J_COLOR_SPACE.JCS_UNKNOWN
      priv := { global_state := DSTATE.INHEADER, src := some bad_header, output_scanline := 0 } }
    0 (by decide) (by decide)
  ⟨h.1.2 ⟨by decide, _, rfl⟩,
   (h.2.2.2 (begun libjpeg (image_decoder_jpeg_new libjpeg) bad_header) (by decide)).2.2.2
     gray_100x50 _ _ _ rfl rfl rfl⟩

/-- C8: from any decoder state (whatever the row counter and whatever window
an earlier session set), `reset` followed by a successful `begin` on a new
buffer gives a decoder whose codec object is what the codec makes of the new
buffer starting from the aborted object, whose row counter is the new image's
height and whose `get_params` are the new image's parameters; the result does
not depend on the row counter left by the earlier session. -/
theorem C8_reset_and_reuse (L : Codec Buf P) (jpeg j1 j2 : image_decoder_jpeg P) (data : Buf)
    (params : SANE_Parameters)
    (hreset : image_decoder_jpeg_reset L jpeg = some j1)
    (hbegin : image_decoder_jpeg_begin L j1 data = some (j2, IMAGE_STATUS.IMAGE_OK))
    (hw : j2.cinfo.image_width ≤ JPEG_MAX_DIMENSION)
    (hh : j2.cinfo.image_height ≤ JPEG_MAX_DIMENSION) :
    (∃ c0 c1 c2, L.jpeg_abort jpeg.cinfo = some c0 ∧ L.jpeg_mem_src c0 data = some c1 ∧
      L.jpeg_read_header c1 true = some (c2, JPEG_HEADER_OK) ∧
      L.jpeg_start_decompress (select_out_color_space c2) = some j2.cinfo) ∧
    j2.num_rows = j2.cinfo.image_height ∧
    image_decoder_jpeg_get_params j2 params =
      { params with
        pixels_per_line := j2.cinfo.image_width
        lines := j2.cinfo.image_height
        depth := 8
        format :=
          if j2.cinfo.num_components = 1 then SANE_Frame.SANE_FRAME_GRAY
          else SANE_Frame.SANE_FRAME_RGB
        bytes_per_line :=
          j2.cinfo.image_width * (if j2.cinfo.num_components = 1 then 1 else 3) } ∧
    ∀ n : Nat, ∃ k1, image_decoder_jpeg_reset L { jpeg with num_rows := n } = some k1 ∧
      image_decoder_jpeg_begin L k1 data = some (j2, IMAGE_STATUS.IMAGE_OK) := by
  obtain ⟨c1, c2, c4, h1, h2, h3, hj⟩ := begin_ok_inv L j1 j2 data hbegin
  unfold image_decoder_jpeg_reset at hreset
  cases ha : L.jpeg_abort jpeg.cinfo with
  | none => simp [ha] at hreset
  | some c0 =>
    simp only [ha, Option.some.injEq] at hreset
    subst hreset
    subst hj
    unfold JPEG_MAX_DIMENSION at hw hh
    simp only at hw hh
    have e1 : to_int (c4.image_width : Int) = c4.image_width :=
      to_int_of_small _ (by omega) (by omega)
    have e2 : to_int (c4.image_height : Int) = c4.image_height :=
      to_int_of_small _ (by omega) (by omega)
    have e3 : to_int ((c4.image_width : Int) * 3) = (c4.image_width : Int) * 3 :=
      to_int_of_small _ (by omega) (by omega)
    refine ⟨⟨c0, c1, c2, rfl, h1, h2, h3⟩, rfl, ?_, ?_⟩
    · by_cases hc : c4.num_components = 1
      · simp [image_decoder_jpeg_get_params, hc, e1, e2]
      · simp [image_decoder_jpeg_get_params, hc, e1, e2, e3]
    · intro n
      refine ⟨{ cinfo := c0, num_rows := n, calls := jpeg.calls ++ [LibCall.abort] },
        by simp only [image_decoder_jpeg_reset, ha], ?_⟩
      exact begin_of_header_ok L _ data c1 c2 c4 h1 h2 h3

/-- Witness of C8: a session on the three-component image with a window set
and three rows read is reset; `begin` on the single-component 100 x 50 image
then gives row counter 50 and that image's parameters. -/
theorem C8_reset_and_reuse_witness :
    (begun libjpeg
      (after_reset libjpeg
        (after_rows libjpeg 3
          (windowed libjpeg (begun libjpeg (image_decoder_jpeg_new libjpeg) rgb_100x50)
            ⟨10, 5, 50, 20⟩)))
      gray_100x50).num_rows = 50 ∧
    image_decoder_jpeg_get_params
      (begun libjpeg
        (after_reset libjpeg
          (after_rows libjpeg 3
            (windowed libjpeg (begun libjpeg (image_decoder_jpeg_new libjpeg) rgb_100x50)
              ⟨10, 5, 50, 20⟩)))
        gray_100x50)
      ⟨SANE_Frame.SANE_FRAME_RED, false, 0, 0, 0, 0⟩ =
      ⟨SANE_Frame.SANE_FRAME_GRAY, false, 100, 100, 50, 8⟩ :=
  have h := C8_reset_and_reuse libjpeg
    (after_rows libjpeg 3
      (windowed libjpeg (begun libjpeg (image_decoder_jpeg_new libjpeg) rgb_100x50)
        ⟨10, 5, 50, 20⟩))
    (after_reset libjpeg
      (after_rows libjpeg 3
        (windowed libjpeg (begun libjpeg (image_decoder_jpeg_new libjpeg) rgb_100x50)
          ⟨10, 5, 50, 20⟩)))
    (begun libjpeg
      (after_reset libjpeg
        (after_rows libjpeg 3
          (windowed libjpeg (begun libjpeg (image_decoder_jpeg_new libjpeg) rgb_100x50)
            ⟨10, 5, 50, 20⟩)))
      gray_100x50)
    gray_100x50 ⟨SANE_Frame.SANE_FRAME_RED, false, 0, 0, 0, 0⟩
    (by decide) (by decide) (by decide) (by decide)
  ⟨h.2.1, h.2.2.1⟩

/-- C10 as stated fails: the window fields are `int`, and on the intact
three-component 100 x 50 image the window with `hei` -1 (full width, `y_off`
0) leaves the row counter at 4294967295, which is not the requested height. -/
theorem C10_counterexample :
    (image_decoder_jpeg_begin libjpeg (image_decoder_jpeg_new libjpeg) rgb_100x50).map Prod.snd =
      some IMAGE_STATUS.IMAGE_OK ∧
    (image_decoder_jpeg_set_window libjpeg
      (begun libjpeg (image_decoder_jpeg_new libjpeg) rgb_100x50) ⟨0, 0, 100, -1⟩).map
        (fun r => (r.1.num_rows, r.2)) = some (4294967295, ⟨0, 0, 100, -1⟩) ∧
    ((4294967295 : Nat) : Int) ≠ (⟨0, 0, 100, -1⟩ : image_window).hei := by
  decide

/-- C10, amended: for every window (fields within the range of `int`), when
the codec's crop returns and, for a positive `y_off`, its skip of `y_off` rows
returns, `set_window` returns; the window written back is the requested one
with only `x_off` and `wid` replaced by the codec's values (`y_off` and `hei`
are the requested ones); the decoder keeps the codec object the skip gave back
from the cropped object (the cropped object itself when there is no skip); the
library calls made are one crop followed by one skip of exactly `y_off` rows,
the skip being absent when `y_off` is not positive; the row counter is the
requested height converted to `unsigned`, which is the requested height itself
whenever that height is not negative.  This holds in every decoder state, in
particular after a successful `begin`. -/
theorem C10_vertical_crop_exact (L : Codec Buf P) (jpeg : image_decoder_jpeg P)
    (win : image_window) (c1 c2 : jpeg_decompress_struct P) (x1 w1 k : Nat)
    (hy1 : win.y_off < 2147483648) (hh1 : win.hei < 2147483648)
    (hcrop : L.jpeg_crop_scanline jpeg.cinfo (to_JDIMENSION win.x_off) (to_JDIMENSION win.wid) =
      some (c1, x1, w1))
    (hskip : 0 < win.y_off → L.jpeg_skip_scanlines c1 win.y_off.toNat = some (c2, k)) :
    ∃ j1 win1, image_decoder_jpeg_set_window L jpeg win = some (j1, win1) ∧
      win1 = { x_off := to_int x1, y_off := win.y_off, wid := to_int w1, hei := win.hei } ∧
      j1.cinfo = (if 0 < win.y_off then c2 else c1) ∧
      j1.calls = jpeg.calls ++
        LibCall.crop_scanline (to_JDIMENSION win.x_off) (to_JDIMENSION win.wid) ::
          (if 0 < win.y_off then [LibCall.skip_scanlines win.y_off.toNat] else []) ∧
      (j1.num_rows : Int) = win.hei % 4294967296 ∧
      (0 ≤ win.hei → (j1.num_rows : Int) = win.hei) := by
  have eh : (to_JDIMENSION win.hei : Int) = win.hei % 4294967296 := by
    unfold to_JDIMENSION
    omega
  have eh0 : 0 ≤ win.hei → (to_JDIMENSION win.hei : Int) = win.hei := fun h0 =>
    to_JDIMENSION_of_nonneg _ h0 (by omega)
  by_cases hy : win.y_off > 0
  · have ey : to_JDIMENSION win.y_off = win.y_off.toNat :=
      to_JDIMENSION_toNat _ (by omega) (by omega)
    have hs := hskip hy
    rw [← ey] at hs
    have hpos : 0 < win.y_off := hy
    refine ⟨_, _, set_window_skip L jpeg win c1 c2 x1 w1 k hy hcrop hs, rfl, ?_, ?_, eh, eh0⟩
    · simp [hpos]
    · simp [hpos, ey]
  · have hpos : ¬ 0 < win.y_off := hy
    refine ⟨_, _, set_window_no_skip L jpeg win c1 x1 w1 hy hcrop, rfl, ?_, ?_, eh, eh0⟩
    · simp [hpos]
    · simp [hpos]

/-- Witness of C10, amended: the window (10, 5, 50, 20) on the three-component
100 x 50 image keeps `y_off` 5 and `hei` 20, makes the codec crop and then skip
5 rows, keeps the codec object the skip gave back (next output row 5) and sets
the row counter to 20. -/
theorem C10_vertical_crop_exact_witness :
    ∃ j1 win1,
      image_decoder_jpeg_set_window libjpeg
        (begun libjpeg (image_decoder_jpeg_new libjpeg) rgb_100x50) ⟨10, 5, 50, 20⟩ =
          some (j1, win1) ∧
      win1 = { x_off := to_int 8, y_off := 5, wid := to_int 52, hei := 20 } ∧
      j1.cinfo =
        (if (0 : Int) < 5 then
          { image_width := 100
            image_height := 50
            num_components := 3
            out_color_space := J_COLOR_SPACE.JCS_RGB
            priv :=
              { global_state := DSTATE.SCANNING
                src := some rgb_100x50
                output_scanline := 5 } }
        else (begun libjpeg (image_decoder_jpeg_new libjpeg) rgb_100x50).cinfo) ∧
      j1.calls = (begun libjpeg (image_decoder_jpeg_new libjpeg) rgb_100x50).calls ++
        LibCall.crop_scanline 10 50 ::
          (if (0 : Int) < 5 then [LibCall.skip_scanlines 5] else []) ∧
      (j1.num_rows : Int) = 20 % 4294967296 ∧
      ((0 : Int) ≤ 20 → (j1.num_rows : Int) = 20) :=
  C10_vertical_crop_exact libjpeg (begun libjpeg (image_decoder_jpeg_new libjpeg) rgb_100x50)
    ⟨10, 5, 50, 20⟩
    (begun libjpeg (image_decoder_jpeg_new libjpeg) rgb_100x50).cinfo
    { image_width := 100
      image_height := 50
      num_components := 3
      out_color_space := J_COLOR_SPACE.JCS_RGB
      priv :=
        { global_state := DSTATE.SCANNING, src := some rgb_100x50, output_scanline := 5 } }
    8 52 5 (by decide) (by decide) (by decide) (fun _ => by decide)

/-- C5: crop containment, with the codec's crop rounding the offset down to
its block alignment (`crop_align`).  For every window with `0 ≤ x_off` and
`x_off + wid ≤ image_width` (fields within the range of `int`, image width
within the codec's limit), `set_window` returns and the window written back
starts at the requested offset rounded down to the alignment, so at or left
of the request, ends at or right of the requested right edge (exactly there)
and does not extend beyond the image width. -/
theorem C5_crop_containment (L : Codec Buf P) (jpeg : image_decoder_jpeg P) (win : image_window)
    (align : Nat) (c1 : jpeg_decompress_struct P)
    (hx0 : 0 ≤ win.x_off) (hxw : win.x_off + win.wid ≤ jpeg.cinfo.image_width)
    (hx1 : win.x_off < 2147483648) (hw0 : -2147483648 ≤ win.wid)
    (hdim : jpeg.cinfo.image_width ≤ JPEG_MAX_DIMENSION)
    (hcrop : L.jpeg_crop_scanline jpeg.cinfo (to_JDIMENSION win.x_off) (to_JDIMENSION win.wid) =
      some (c1, crop_align align (to_JDIMENSION win.x_off) (to_JDIMENSION win.wid)))
    (hskip : 0 < win.y_off → ∃ r, L.jpeg_skip_scanlines c1 (to_JDIMENSION win.y_off) = some r) :
    ∃ j1 win1, image_decoder_jpeg_set_window L jpeg win = some (j1, win1) ∧
      win1.x_off = ((win.x_off.toNat / align * align : Nat) : Int) ∧
      0 ≤ win1.x_off ∧
      win1.x_off ≤ win.x_off ∧
      win.x_off + win.wid ≤ win1.x_off + win1.wid ∧
      win1.x_off + win1.wid ≤ jpeg.cinfo.image_width := by
  unfold JPEG_MAX_DIMENSION at hdim
  obtain ⟨e1, e2, e3, e4⟩ := crop_align_contains align win.x_off win.wid
    jpeg.cinfo.image_width hx0 hx1 hw0 hxw (by omega)
  by_cases hy : win.y_off > 0
  · obtain ⟨⟨c2, k⟩, hs⟩ := hskip hy
    refine ⟨_, _, set_window_skip L jpeg win c1 c2 _ _ k hy hcrop hs, e1, e2, e3, ?_, ?_⟩
    · show win.x_off + win.wid ≤
        to_int (crop_align align (to_JDIMENSION win.x_off) (to_JDIMENSION win.wid)).1 +
          to_int (crop_align align (to_JDIMENSION win.x_off) (to_JDIMENSION win.wid)).2
      rw [e4]
    · show to_int (crop_align align (to_JDIMENSION win.x_off) (to_JDIMENSION win.wid)).1 +
          to_int (crop_align align (to_JDIMENSION win.x_off) (to_JDIMENSION win.wid)).2 ≤
        jpeg.cinfo.image_width
      rw [e4]
      exact hxw
  · refine ⟨_, _, set_window_no_skip L jpeg win c1 _ _ hy hcrop, e1, e2, e3, ?_, ?_⟩
    · show win.x_off + win.wid ≤
        to_int (crop_align align (to_JDIMENSION win.x_off) (to_JDIMENSION win.wid)).1 +
          to_int (crop_align align (to_JDIMENSION win.x_off) (to_JDIMENSION win.wid)).2
      rw [e4]
    · show to_int (crop_align align (to_JDIMENSION win.x_off) (to_JDIMENSION win.wid)).1 +
          to_int (crop_align align (to_JDIMENSION win.x_off) (to_JDIMENSION win.wid)).2 ≤
        jpeg.cinfo.image_width
      rw [e4]
      exact hxw

/-- Witness of C5: on the three-component 100 x 50 image with 8-pixel
alignment, the request `x_off` 10, `wid` 50 is answered by `x_off` 8 and a
region that covers the columns 10 to 60 and stays inside the 100 columns. -/
theorem C5_crop_containment_witness :
    ∃ j1 win1,
      image_decoder_jpeg_set_window libjpeg
        (begun libjpeg (image_decoder_jpeg_new libjpeg) rgb_100x50) ⟨10, 5, 50, 20⟩ =
          some (j1, win1) ∧
      win1.x_off = ((8 : Nat) : Int) ∧ 0 ≤ win1.x_off ∧ win1.x_off ≤ 10 ∧
      10 + 50 ≤ win1.x_off + win1.wid ∧
      win1.x_off + win1.wid ≤ ((100 : Nat) : Int) :=
  C5_crop_containment libjpeg (begun libjpeg (image_decoder_jpeg_new libjpeg) rgb_100x50)
    ⟨10, 5, 50, 20⟩ 8 (begun libjpeg (image_decoder_jpeg_new libjpeg) rgb_100x50).cinfo
    (by decide) (by decide) (by decide) (by decide) (by decide) (by decide) (fun _ => ⟨_, rfl⟩)

/-- C4 as stated fails: on the intact three-component 100 x 50 image (`begin`
returns OK and the codec produces all 50 scanlines) the window with `y_off` 40
and `hei` 20 sets the row counter to 20 although only 10 rows remain after the
skip; the codec produces those 10, and `read_row` returns OK 10 times and then
ERROR, not OK 20 times and then EOF. -/
theorem C4_counterexample :
    (image_decoder_jpeg_begin libjpeg (image_decoder_jpeg_new libjpeg) rgb_100x50).map Prod.snd =
      some IMAGE_STATUS.IMAGE_OK ∧
    codec_produces libjpeg 50
      (begun libjpeg (image_decoder_jpeg_new libjpeg) rgb_100x50).cinfo = true ∧
    (image_decoder_jpeg_set_window libjpeg
      (begun libjpeg (image_decoder_jpeg_new libjpeg) rgb_100x50) ⟨0, 40, 100, 20⟩).map
        (fun r => (r.1.num_rows, r.2)) = some (20, ⟨0, 40, 100, 20⟩) ∧
    codec_produces libjpeg 10
      (windowed libjpeg (begun libjpeg (image_decoder_jpeg_new libjpeg) rgb_100x50)
        ⟨0, 40, 100, 20⟩).cinfo = true ∧
    (read_rows libjpeg 21
      (windowed libjpeg (begun libjpeg (image_decoder_jpeg_new libjpeg) rgb_100x50)
        ⟨0, 40, 100, 20⟩)).map Prod.snd =
      some (List.replicate 10 IMAGE_STATUS.IMAGE_OK ++
        List.replicate 11 IMAGE_STATUS.IMAGE_ERROR) ∧
    (read_rows libjpeg 21
      (windowed libjpeg (begun libjpeg (image_decoder_jpeg_new libjpeg) rgb_100x50)
        ⟨0, 40, 100, 20⟩)).map Prod.snd ≠
      some (List.replicate 20 IMAGE_STATUS.IMAGE_OK ++ [IMAGE_STATUS.IMAGE_EOF]) := by
  decide

/-- C4, amended: for every window of non-negative `y_off` and `hei` that lies
inside the image vertically (`y_off + hei ≤ image_height`), if `set_window`
returns and the codec then produces every scanline that remains of the image
below `y_off`, `read_row` returns OK exactly `hei` times and EOF on the next
call.  The decoder `j0` is any state, in particular the one after a successful
`begin`. -/
theorem C4_window_rows (L : Codec Buf P) (j0 j1 : image_decoder_jpeg P)
    (win win1 : image_window)
    (hwin : image_decoder_jpeg_set_window L j0 win = some (j1, win1))
    (hy0 : 0 ≤ win.y_off) (hh0 : 0 ≤ win.hei)
    (hfit : win.y_off + win.hei ≤ j0.cinfo.image_height)
    (hdim : j0.cinfo.image_height ≤ JPEG_MAX_DIMENSION)
    (hvalid : codec_produces L (j0.cinfo.image_height - win.y_off.toNat) j1.cinfo = true) :
    (read_rows L (win.hei.toNat + 1) j1).map Prod.snd =
      some (List.replicate win.hei.toNat IMAGE_STATUS.IMAGE_OK ++ [IMAGE_STATUS.IMAGE_EOF]) := by
  unfold JPEG_MAX_DIMENSION at hdim
  obtain ⟨hn, _, _, _⟩ := set_window_inv L j0 j1 win win1 hwin
  have eh : to_JDIMENSION win.hei = win.hei.toNat :=
    to_JDIMENSION_toNat _ hh0 (by omega)
  rw [eh] at hn
  have hp : codec_produces L win.hei.toNat j1.cinfo = true :=
    codec_produces_mono L _ _ (by omega) j1.cinfo hvalid
  exact read_rows_ok_then_eof L _ j1 hn (by omega) hp

/-- Witness of C4, amended: the window (10, 5, 50, 20) on the intact
three-component 100 x 50 image gives exactly 20 rows and then EOF. -/
theorem C4_window_rows_witness :
    (read_rows libjpeg 21
      (windowed libjpeg (begun libjpeg (image_decoder_jpeg_new libjpeg) rgb_100x50)
        ⟨10, 5, 50, 20⟩)).map Prod.snd =
      some (List.replicate 20 IMAGE_STATUS.IMAGE_OK ++ [IMAGE_STATUS.IMAGE_EOF]) :=
  C4_window_rows libjpeg (begun libjpeg (image_decoder_jpeg_new libjpeg) rgb_100x50)
    (windowed libjpeg (begun libjpeg (image_decoder_jpeg_new libjpeg) rgb_100x50)
      ⟨10, 5, 50, 20⟩)
    ⟨10, 5, 50, 20⟩ ⟨8, 5, 52, 20⟩ (by decide) (by decide) (by decide) (by decide) (by decide)
    (by decide)

/-- C9 as stated fails: on a freshly constructed decoder (the only library
call so far is the creation of the codec object) `read_row` returns the normal
result EOF, and so it does after a failed `begin`. -/
theorem C9_counterexample :
    (image_decoder_jpeg_new libjpeg).calls = [LibCall.create_decompress] ∧
    image_decoder_jpeg_read_row libjpeg (image_decoder_jpeg_new libjpeg) =
      some (image_decoder_jpeg_new libjpeg, IMAGE_STATUS.IMAGE_EOF) ∧
    (image_decoder_jpeg_begin libjpeg (image_decoder_jpeg_new libjpeg) bad_header).map Prod.snd =
      some IMAGE_STATUS.IMAGE_ERROR ∧
    (image_decoder_jpeg_read_row libjpeg
      (begun libjpeg (image_decoder_jpeg_new libjpeg) bad_header)).map Prod.snd =
      some IMAGE_STATUS.IMAGE_EOF := by
  decide

/-- C9, amended, with the codec library's state check as in the reference
codec: a decoder on which no `begin` has succeeded in the current session
(freshly constructed, after `reset` from any state, or after a `begin` that
returned ERROR from any state) has its codec object in the idle phase, and for
every decoder whose codec object is not in the scanning phase
* `set_window` does not return, whatever the window: the codec's crop is
  fatal and no skip is reached;
* `read_row` never returns OK or ERROR and no scanline is produced: with a
  non-zero row counter it does not return (the codec's scanline read is
  fatal); with a zero row counter, the one silent case, it returns EOF, the
  decoder being unchanged, so without any library call. -/
theorem C9_misuse_fails_loudly_or_eof :
    (image_decoder_jpeg_new libjpeg).cinfo.priv.global_state = DSTATE.START ∧
    (∀ jpeg j1, image_decoder_jpeg_reset libjpeg jpeg = some j1 →
      j1.cinfo.priv.global_state = DSTATE.START) ∧
    (∀ jpeg data j1,
      image_decoder_jpeg_begin libjpeg jpeg data = some (j1, IMAGE_STATUS.IMAGE_ERROR) →
      j1.cinfo.priv.global_state = DSTATE.START) ∧
    (∀ jpeg : image_decoder_jpeg LibState, jpeg.cinfo.priv.global_state ≠ DSTATE.SCANNING →
      (∀ win, image_decoder_jpeg_set_window libjpeg jpeg win = none) ∧
      (jpeg.num_rows ≠ 0 → image_decoder_jpeg_read_row libjpeg jpeg = none) ∧
      (jpeg.num_rows = 0 →
        image_decoder_jpeg_read_row libjpeg jpeg = some (jpeg, IMAGE_STATUS.IMAGE_EOF)) ∧
      (∀ j1 st, image_decoder_jpeg_read_row libjpeg jpeg = some (j1, st) →
        st = IMAGE_STATUS.IMAGE_EOF ∧ j1 = jpeg ∧ j1.calls = jpeg.calls ∧
          jpeg.num_rows = 0)) := by
  have hread : ∀ jpeg : image_decoder_jpeg LibState,
      jpeg.cinfo.priv.global_state ≠ DSTATE.SCANNING → jpeg.num_rows ≠ 0 →
      image_decoder_jpeg_read_row libjpeg jpeg = none := by
    intro jpeg hs hn
    simp [image_decoder_jpeg_read_row, hn, libjpeg, hs]
  refine ⟨rfl, ?_, ?_, ?_⟩
  · intro jpeg j1 h
    simp only [image_decoder_jpeg_reset, libjpeg, Option.some.injEq] at h
    subst h
    rfl
  · intro jpeg data j1 h
    obtain ⟨c1, c2, rc, c3, _, _, _, h3, hj⟩ := begin_error_inv libjpeg jpeg j1 data h
    subst hj
    simp only [libjpeg, Option.some.injEq] at h3
    subst h3
    rfl
  · intro jpeg hs
    refine ⟨?_, hread jpeg hs, read_row_of_zero libjpeg jpeg, ?_⟩
    · intro win
      simp [image_decoder_jpeg_set_window, libjpeg, hs]
    · intro j1 st h
      by_cases hn : jpeg.num_rows = 0
      · rw [read_row_of_zero libjpeg jpeg hn] at h
        simp only [Option.some.injEq, Prod.mk.injEq] at h
        obtain ⟨hj, hst⟩ := h
        subst hj hst
        exact ⟨rfl, rfl, rfl, hn⟩
      · rw [hread jpeg hs hn] at h
        cases h

/-- Witness of C9, amended: after the reset of a session on the 100 x 50 image
with all 50 rows left, `set_window` and `read_row` do not return; on a fresh
decoder `set_window` does not return and `read_row` returns EOF. -/
theorem C9_misuse_fails_loudly_or_eof_witness :
    (after_reset libjpeg (begun libjpeg (image_decoder_jpeg_new libjpeg) gray_100x50)).num_rows =
      50 ∧
    image_decoder_jpeg_set_window libjpeg
      (after_reset libjpeg (begun libjpeg (image_decoder_jpeg_new libjpeg) gray_100x50))
      ⟨10, 5, 50, 20⟩ = none ∧
    image_decoder_jpeg_read_row libjpeg
      (after_reset libjpeg (begun libjpeg (image_decoder_jpeg_new libjpeg) gray_100x50)) = none ∧
    image_decoder_jpeg_set_window libjpeg (image_decoder_jpeg_new libjpeg) ⟨10, 5, 50, 20⟩ =
      none ∧
    image_decoder_jpeg_read_row libjpeg (image_decoder_jpeg_new libjpeg) =
      some (image_decoder_jpeg_new libjpeg, IMAGE_STATUS.IMAGE_EOF) :=
  have h := C9_misuse_fails_loudly_or_eof
  ⟨by decide,
   (h.2.2.2 (after_reset libjpeg (begun libjpeg (image_decoder_jpeg_new libjpeg) gray_100x50))
      (by decide)).1 _,
   (h.2.2.2 (after_reset libjpeg (begun libjpeg (image_decoder_jpeg_new libjpeg) gray_100x50))
      (by decide)).2.1 (by decide),
   (h.2.2.2 (image_decoder_jpeg_new libjpeg) (by decide)).1 _,
   (h.2.2.2 (image_decoder_jpeg_new libjpeg) (by decide)).2.2.1 (by decide)⟩

end AirscanJpeg
